import Mathlib

/-!
# dynamic_paper: the `SetBackground` bridge (`src/golang/background.go`)

A shallow embedding of the exported Go function `SetBackground` and of the
library pieces it touches, followed by the properties of the bridge.

* Text is a Lean `String`; each `Char` stands for one unit of the Go string.
* A `*C.char` argument is the memory found at the pointer (`CharPtr`), read by
  `GoString` up to the first NUL.
* `wallutils.SetWallpaperCustom` is an external library function: it is a
  parameter (`Wallutils`), acting on a state `W` of its own (the desktop).
* The observable behaviour of the process is an append-only list of `Event`s:
  the invocation of the collaborator, its return, and writes to the standard
  streams.
-/

namespace DynamicPaper

/-! ## Data model -/

/-- Go `error` interface value: `none` is `nil`, `some d` is a non-nil error
whose `Error()` text is `d`. -/
abbrev GoError := Option String

/-- The argument type `*C.char`: the NULL pointer, or the memory stored from the
pointed address on. -/
inductive CharPtr where
  | null
  | mem (bytes : List Char)
deriving DecidableEq

/-- The NUL character that terminates a C string. -/
def NUL : Char := Char.ofNat 0

/-- The line feed character. -/
def LF : Char := Char.ofNat 10

/-- The conversion `C.GoString`: a copy of the C string at the pointer, up to (not
including) the first NUL; the empty string for the NULL pointer. The memory is a
finite list here: memory without any NUL (reading it is undefined in C) is
copied to its end. -/
def GoString : CharPtr → String
  | CharPtr.null => ""
  | CharPtr.mem bytes => ⟨bytes.takeWhile (fun c => c != NUL)⟩

/-- The C string holding the text `s`: its characters, a terminating NUL, and
whatever memory follows (`after`). -/
def cstring (s : String) (after : List Char) : CharPtr :=
  CharPtr.mem (s.data ++ NUL :: after)

/-- The standard streams of the process. -/
inductive Fd where
  | stdout
  | stderr
deriving DecidableEq

/-- Observable events of the process. -/
inductive Event where
  /-- The function `wallutils.SetWallpaperCustom` is invoked with these arguments. -/
  | call (fileName mode : String) (allowModeFallback : Bool)
  /-- That invocation has returned `err`. -/
  | ret (err : GoError)
  /-- One `Write` of `text` to a standard stream. -/
  | write (fd : Fd) (text : String)
deriving DecidableEq

/-- The external package `wallutils`, of which the bridge uses one function. It
acts on a state `W` of its own and returns a Go `error`. -/
structure Wallutils (W : Type) where
  SetWallpaperCustom : String → String → Bool → W → GoError × W

/-- Process state: the collaborator's state and the events so far. -/
structure Proc (W : Type) where
  desktop : W
  trace : List Event
deriving DecidableEq

/-- An operand of `fmt.Printf`, as far as the bridge passes them. -/
inductive Operand where
  | str (s : String)
  | error (e : GoError)
deriving DecidableEq

/-! ## The fragment of `fmt` used by the bridge -/

/-- What the verb `%v` prints for an operand: a string as it is, an error by its
`Error()` text, a nil error as `<nil>`. -/
def verbV : Operand → String
  | Operand.str s => s
  | Operand.error (some d) => d
  | Operand.error none => "<nil>"

/-- The formatting loop of `fmt`, for the fragment modelled here: plain text is
copied, `%v` prints the next operand, `%%` prints a percent sign. Any other
verb, a missing operand or a left-over operand is outside the fragment:
`none`. -/
def doPrintf : List Char → List Operand → Option (List Char)
  | [], [] => some []
  | [], _ :: _ => none
  | c :: rest, a =>
    if c = '%' then
      match rest, a with
      | d :: rest', a =>
        if d = 'v' then
          match a with
          | x :: a' => (doPrintf rest' a').map (fun out => (verbV x).data ++ out)
          | [] => none
        else if d = '%' then (doPrintf rest' a).map (fun out => '%' :: out)
        else none
      | [], _ => none
    else (doPrintf rest a).map (fun out => c :: out)

/-- The function `fmt.Sprintf` on the modelled fragment. -/
def Sprintf (format : String) (a : List Operand) : Option String :=
  (doPrintf format.data a).map String.mk

/-- The function `fmt.Fprintf` to a standard stream: the formatted text is handed
over in one `Write`. -/
def Fprintf {W : Type} (fd : Fd) (format : String) (a : List Operand) (st : Proc W) :
    Option (Proc W) :=
  (Sprintf format a).map (fun out => ⟨st.desktop, st.trace ++ [Event.write fd out]⟩)

/-- The function `fmt.Printf`, which is `fmt.Fprintf(os.Stdout, ...)`. -/
def Printf {W : Type} (format : String) (a : List Operand) (st : Proc W) : Option (Proc W) :=
  Fprintf Fd.stdout format a st

/-! ## The bridge -/

/-- The call `wallutils.SetWallpaperCustom(fileName, mode, allowModeFallback)` in
a process: the collaborator runs on its state, the invocation and its return are
recorded. -/
def callSetWallpaperCustom {W : Type} (wallutils : Wallutils W) (fileName mode : String)
    (allowModeFallback : Bool) (st : Proc W) : GoError × Proc W :=
  let r := wallutils.SetWallpaperCustom fileName mode allowModeFallback st.desktop
  (r.1, ⟨r.2, st.trace ++ [Event.call fileName mode allowModeFallback, Event.ret r.1]⟩)

/-- The exported function `SetBackground` of `background.go`. The result is
`some ((), st')` when the call returns, in process state `st'`. -/
def SetBackground {W : Type} (wallutils : Wallutils W) (fileNameString modeString : CharPtr)
    (st : Proc W) : Option (Unit × Proc W) :=
  let fileName := GoString fileNameString
  let mode := GoString modeString
  let r := callSetWallpaperCustom wallutils fileName mode false st
  let err := r.1
  if err ≠ none then
    (Printf "Error occured when setting %v as the background with mode %v\nerror:%v\n"
      [Operand.str fileName, Operand.str mode, Operand.error err] r.2).map (fun st' => ((), st'))
  else
    some ((), r.2)

/-! ## Observations on traces -/

/-- The text written to stream `fd` by the events `es`, in order. -/
def written (fd : Fd) : List Event → String
  | [] => ""
  | Event.write fd' text :: es => if fd' = fd then text ++ written fd es else written fd es
  | _ :: es => written fd es

/-- The text written to any standard stream by the events `es`, in order. -/
def output : List Event → String
  | [] => ""
  | Event.write _ text :: es => text ++ output es
  | _ :: es => output es

/-- The invocations of the collaborator among the events `es`, as argument
triples. -/
def invocations : List Event → List (String × String × Bool)
  | [] => []
  | Event.call f m b :: es => (f, m, b) :: invocations es
  | _ :: es => invocations es

/-- Whether an event is a write to a standard stream. -/
def Event.isWrite : Event → Bool
  | Event.write _ _ => true
  | _ => false

/-- A sequence of calls of the bridge, one after the other; `none` if one of
them does not return. -/
def runCalls {W : Type} (wallutils : Wallutils W) : List (CharPtr × CharPtr) → Proc W →
    Option (Proc W)
  | [], st => some st
  | (p, m) :: cs, st =>
    match SetBackground wallutils p m st with
    | some (_, st') => runCalls wallutils cs st'
    | none => none

/-- The events that happened between process state `st` and the later state
`st'`. -/
def newEvents {W : Type} (st st' : Proc W) : List Event :=
  st'.trace.drop st.trace.length

/-- The text that one call of the bridge writes, to whatever stream; `none` if
the call does not return. -/
def emitted {W : Type} (wallutils : Wallutils W) (fileNameString modeString : CharPtr)
    (st : Proc W) : Option String :=
  (SetBackground wallutils fileNameString modeString st).map
    (fun r => output (newEvents st r.2))

/-- The text that one call of the bridge writes to the stream `fd`; `none` if the
call does not return. -/
def emittedTo {W : Type} (fd : Fd) (wallutils : Wallutils W)
    (fileNameString modeString : CharPtr) (st : Proc W) : Option String :=
  (SetBackground wallutils fileNameString modeString st).map
    (fun r => written fd (newEvents st r.2))

/-- The argument triples that one call of the bridge hands to the collaborator,
in order; `none` if the call does not return. -/
def forwarded {W : Type} (wallutils : Wallutils W) (fileNameString modeString : CharPtr)
    (st : Proc W) : Option (List (String × String × Bool)) :=
  (SetBackground wallutils fileNameString modeString st).map
    (fun r => invocations (newEvents st r.2))

/-- A collaborator without state that returns `r` on every call. -/
def returning (r : GoError) : Wallutils Unit := ⟨fun _ _ _ w => (r, w)⟩

/-- A collaborator without state that succeeds on every call. -/
def succeeding : Wallutils Unit := returning none

/-- A collaborator without state that fails on every call, with description `d`. -/
def failing (d : String) : Wallutils Unit := returning (some d)

/-- The process before anything happened. -/
def start : Proc Unit := ⟨(), []⟩

/-- The number of line feeds in a text. -/
def lineFeeds (s : String) : Nat := s.data.count LF

/-! ## Evaluation of the bridge -/

/-- The diagnostic text of the bridge, as the formatting loop produces it. -/
theorem doPrintf_template (fileName mode : String) (err : GoError) :
    doPrintf
      "Error occured when setting %v as the background with mode %v\nerror:%v\n".data
      [Operand.str fileName, Operand.str mode, Operand.error err]
    = some ("Error occured when setting ".data ++ fileName.data
        ++ " as the background with mode ".data ++ mode.data ++ "\nerror:".data
        ++ (verbV (Operand.error err)).data ++ "\n".data) := by
  simp [doPrintf, verbV]

/-- The diagnostic text of the bridge, as `fmt.Sprintf` produces it. -/
theorem Sprintf_template (fileName mode : String) (err : GoError) :
    Sprintf "Error occured when setting %v as the background with mode %v\nerror:%v\n"
      [Operand.str fileName, Operand.str mode, Operand.error err]
    = some ("Error occured when setting " ++ fileName ++ " as the background with mode "
        ++ mode ++ "\nerror:" ++ verbV (Operand.error err) ++ "\n") := by
  unfold Sprintf
  rw [doPrintf_template]
  simp only [Option.map_some', Option.some.injEq]
  apply String.ext
  simp [String.data_append]

/-- The bridge when the collaborator reports success: the invocation and its
return are the only new events. -/
theorem SetBackground_of_success {W : Type} (wallutils : Wallutils W)
    (fileNameString modeString : CharPtr) (st : Proc W)
    (h : (wallutils.SetWallpaperCustom (GoString fileNameString) (GoString modeString) false
      st.desktop).1 = none) :
    SetBackground wallutils fileNameString modeString st
    = some ((), ⟨(wallutils.SetWallpaperCustom (GoString fileNameString) (GoString modeString)
          false st.desktop).2,
        st.trace ++ [Event.call (GoString fileNameString) (GoString modeString) false,
          Event.ret none]⟩) := by
  simp [SetBackground, callSetWallpaperCustom, h]

/-- The bridge when the collaborator fails with description `d`: the invocation,
its return, and one write of the diagnostic text to standard output. -/
theorem SetBackground_of_failure {W : Type} (wallutils : Wallutils W)
    (fileNameString modeString : CharPtr) (st : Proc W) (d : String)
    (h : (wallutils.SetWallpaperCustom (GoString fileNameString) (GoString modeString) false
      st.desktop).1 = some d) :
    SetBackground wallutils fileNameString modeString st
    = some ((), ⟨(wallutils.SetWallpaperCustom (GoString fileNameString) (GoString modeString)
          false st.desktop).2,
        st.trace ++ [Event.call (GoString fileNameString) (GoString modeString) false,
          Event.ret (some d),
          Event.write Fd.stdout ("Error occured when setting " ++ GoString fileNameString
            ++ " as the background with mode " ++ GoString modeString ++ "\nerror:" ++ d
            ++ "\n")]⟩) := by
  simp [SetBackground, callSetWallpaperCustom, h, Printf, Fprintf, Sprintf_template, verbV]

/-- The events between a state and the same state with events appended. -/
theorem newEvents_append {W : Type} (st : Proc W) (w : W) (es : List Event) :
    newEvents st ⟨w, st.trace ++ es⟩ = es := by
  simp [newEvents]

/-- Line feeds add up over concatenation. -/
theorem lineFeeds_append (a b : String) : lineFeeds (a ++ b) = lineFeeds a + lineFeeds b := by
  simp [lineFeeds, String.data_append]

/-- A text without NUL, stored as a C string, is read back unchanged. -/
theorem GoString_cstring (s : String) (after : List Char) (h : NUL ∉ s.data) :
    GoString (cstring s after) = s := by
  have key : ∀ l : List Char, NUL ∉ l →
      (l ++ NUL :: after).takeWhile (fun c => c != NUL) = l := by
    intro l
    induction l with
    | nil => intro _; simp
    | cons c l ih =>
      intro hl
      have hc : c ≠ NUL := fun e => hl (by simp [e])
      have hl' : NUL ∉ l := fun e => hl (by simp [e])
      have hb : (c != NUL) = true := by simp [hc]
      simp [List.takeWhile, hb, ih hl']
  apply String.ext
  simp [GoString, cstring, key s.data h]

/-- What one call of the bridge hands to the collaborator. -/
theorem forwarded_eq {W : Type} (wallutils : Wallutils W)
    (fileNameString modeString : CharPtr) (st : Proc W) :
    forwarded wallutils fileNameString modeString st
      = some [(GoString fileNameString, GoString modeString, false)] := by
  rcases h : (wallutils.SetWallpaperCustom (GoString fileNameString) (GoString modeString)
    false st.desktop).1 with _ | d
  · simp [forwarded, SetBackground_of_success wallutils fileNameString modeString st h,
      newEvents_append, invocations]
  · simp [forwarded, SetBackground_of_failure wallutils fileNameString modeString st d h,
      newEvents_append, invocations]

/-- Every call of the bridge returns. -/
theorem SetBackground_isSome {W : Type} (wallutils : Wallutils W)
    (fileNameString modeString : CharPtr) (st : Proc W) :
    ∃ st', SetBackground wallutils fileNameString modeString st = some ((), st') := by
  rcases h : (wallutils.SetWallpaperCustom (GoString fileNameString) (GoString modeString)
    false st.desktop).1 with _ | d
  · exact ⟨_, SetBackground_of_success wallutils fileNameString modeString st h⟩
  · exact ⟨_, SetBackground_of_failure wallutils fileNameString modeString st d h⟩

/-- Every sequence of calls of the bridge runs to its end. -/
theorem runCalls_isSome {W : Type} (wallutils : Wallutils W) (calls : List (CharPtr × CharPtr)) :
    ∀ st : Proc W, ∃ st', runCalls wallutils calls st = some st' := by
  induction calls with
  | nil => intro st; exact ⟨st, rfl⟩
  | cons c cs ih =>
    intro st
    obtain ⟨p, m⟩ := c
    obtain ⟨st₁, h₁⟩ := SetBackground_isSome wallutils p m st
    obtain ⟨st₂, h₂⟩ := ih st₁
    exact ⟨st₂, by simp [runCalls, h₁, h₂]⟩

/-- What one call of the bridge writes depends on the process only through the
collaborator's result. -/
theorem emitted_eq_alone {W : Type} (wallutils : Wallutils W)
    (fileNameString modeString : CharPtr) (st : Proc W) :
    emitted wallutils fileNameString modeString st
      = emitted (returning (wallutils.SetWallpaperCustom (GoString fileNameString)
          (GoString modeString) false st.desktop).1) fileNameString modeString start := by
  rcases h : (wallutils.SetWallpaperCustom (GoString fileNameString) (GoString modeString)
    false st.desktop).1 with _ | d
  · rw [emitted, emitted, SetBackground_of_success wallutils fileNameString modeString st h,
      SetBackground_of_success (returning none) fileNameString modeString start rfl]
    simp [newEvents_append]
  · rw [emitted, emitted, SetBackground_of_failure wallutils fileNameString modeString st d h,
      SetBackground_of_failure (returning (some d)) fileNameString modeString start d rfl]
    simp [newEvents_append]

/-! ## Properties of the bridge -/

/-- C1: when the collaborator reports success, the call returns (with the unit
result, the only one its type has) and the text it wrote is empty, on every
stream. -/
theorem SetBackground_success_silent {W : Type} (wallutils : Wallutils W)
    (fileNameString modeString : CharPtr) (st : Proc W)
    (h : (wallutils.SetWallpaperCustom (GoString fileNameString) (GoString modeString) false
      st.desktop).1 = none) :
    (SetBackground wallutils fileNameString modeString st).map Prod.fst = some ()
    ∧ emitted wallutils fileNameString modeString st = some ""
    ∧ emittedTo Fd.stdout wallutils fileNameString modeString st = some ""
    ∧ emittedTo Fd.stderr wallutils fileNameString modeString st = some "" := by
  simp [emitted, emittedTo, SetBackground_of_success wallutils fileNameString modeString st h,
    newEvents_append, output, written]

/-- C1 at path `/tmp/sunset.jpg`, mode `stretch`, with a succeeding
collaborator. -/
theorem SetBackground_success_silent_witness :
    ((succeeding.SetWallpaperCustom (GoString (cstring "/tmp/sunset.jpg" []))
        (GoString (cstring "stretch" [])) false start.desktop).1 = none)
    ∧ ((SetBackground succeeding (cstring "/tmp/sunset.jpg" []) (cstring "stretch" [])
        start).map Prod.fst = some ()
      ∧ emitted succeeding (cstring "/tmp/sunset.jpg" []) (cstring "stretch" []) start = some ""
      ∧ emittedTo Fd.stdout succeeding (cstring "/tmp/sunset.jpg" []) (cstring "stretch" [])
          start = some ""
      ∧ emittedTo Fd.stderr succeeding (cstring "/tmp/sunset.jpg" []) (cstring "stretch" [])
          start = some "") :=
  ⟨rfl, SetBackground_success_silent succeeding (cstring "/tmp/sunset.jpg" [])
    (cstring "stretch" []) start rfl⟩

/-- C2: for a path and a mode that the caller passes as C strings (any text
without NUL, whatever memory follows the terminator), when the collaborator fails
with description `d`, the text written by the call contains the caller's path,
then the caller's mode, then `d`, one after the other without overlap. -/
theorem SetBackground_failure_mentions {W : Type} (wallutils : Wallutils W)
    (path mode : String) (afterPath afterMode : List Char) (st : Proc W) (d : String)
    (hp : NUL ∉ path.data) (hm : NUL ∉ mode.data)
    (h : (wallutils.SetWallpaperCustom path mode false st.desktop).1 = some d) :
    ∃ t₀ t₁ t₂ t₃ : String,
      emitted wallutils (cstring path afterPath) (cstring mode afterMode) st
        = some (t₀ ++ path ++ t₁ ++ mode ++ t₂ ++ d ++ t₃) := by
  have gp : GoString (cstring path afterPath) = path := GoString_cstring path afterPath hp
  have gm : GoString (cstring mode afterMode) = mode := GoString_cstring mode afterMode hm
  have h' : (wallutils.SetWallpaperCustom (GoString (cstring path afterPath))
      (GoString (cstring mode afterMode)) false st.desktop).1 = some d := by
    rw [gp, gm]; exact h
  refine ⟨"Error occured when setting ", " as the background with mode ", "\nerror:", "\n", ?_⟩
  rw [emitted, SetBackground_of_failure wallutils (cstring path afterPath)
    (cstring mode afterMode) st d h', gp, gm]
  simp [newEvents_append, output]

/-- C2 at path `/nonexistent.jpg`, mode `stretch`, failure `file not found`: the
text written contains these three literal texts in that order. -/
theorem SetBackground_failure_mentions_witness :
    (NUL ∉ "/nonexistent.jpg".data ∧ NUL ∉ "stretch".data
      ∧ ((failing "file not found").SetWallpaperCustom "/nonexistent.jpg" "stretch" false
          start.desktop).1 = some "file not found")
    ∧ ∃ t₀ t₁ t₂ t₃ : String,
      emitted (failing "file not found") (cstring "/nonexistent.jpg" []) (cstring "stretch" [])
          start
        = some (t₀ ++ "/nonexistent.jpg" ++ t₁ ++ "stretch" ++ t₂ ++ "file not found" ++ t₃) :=
  ⟨⟨by decide, by decide, rfl⟩,
    SetBackground_failure_mentions (failing "file not found") "/nonexistent.jpg" "stretch"
      [] [] start "file not found" (by decide) (by decide) rfl⟩

/-- C10: when the collaborator fails with description `d`, the text written by
the call is exactly the template of the source with the path, the mode and `d`
filled in. -/
theorem SetBackground_failure_text {W : Type} (wallutils : Wallutils W)
    (fileNameString modeString : CharPtr) (st : Proc W) (d : String)
    (h : (wallutils.SetWallpaperCustom (GoString fileNameString) (GoString modeString) false
      st.desktop).1 = some d) :
    emitted wallutils fileNameString modeString st
      = some ("Error occured when setting " ++ GoString fileNameString
          ++ " as the background with mode " ++ GoString modeString ++ "\nerror:" ++ d
          ++ "\n") := by
  simp [emitted, SetBackground_of_failure wallutils fileNameString modeString st d h,
    newEvents_append, output]

/-- C10 at path `/nonexistent.jpg`, mode `stretch`, failure `file not found`. -/
theorem SetBackground_failure_text_witness :
    ((failing "file not found").SetWallpaperCustom (GoString (cstring "/nonexistent.jpg" []))
        (GoString (cstring "stretch" [])) false start.desktop).1 = some "file not found"
    ∧ emitted (failing "file not found") (cstring "/nonexistent.jpg" []) (cstring "stretch" [])
        start
      = some "Error occured when setting /nonexistent.jpg as the background with mode stretch\nerror:file not found\n" :=
  ⟨rfl, SetBackground_failure_text (failing "file not found")
    (cstring "/nonexistent.jpg" []) (cstring "stretch" []) start "file not found" rfl⟩

/-- C3, as the source has it: the claim of a single line fails at path
`/nonexistent.jpg`, mode `stretch`, failure `file not found`, none of which holds
a line feed: the text written has two line feeds, not one. -/
theorem SetBackground_failure_one_line_counterexample :
    lineFeeds (GoString (cstring "/nonexistent.jpg" [])) = 0
    ∧ lineFeeds (GoString (cstring "stretch" [])) = 0
    ∧ lineFeeds "file not found" = 0
    ∧ ((failing "file not found").SetWallpaperCustom (GoString (cstring "/nonexistent.jpg" []))
        (GoString (cstring "stretch" [])) false start.desktop).1 = some "file not found"
    ∧ (emitted (failing "file not found") (cstring "/nonexistent.jpg" []) (cstring "stretch" [])
        start).map lineFeeds = some 2
    ∧ (emitted (failing "file not found") (cstring "/nonexistent.jpg" []) (cstring "stretch" [])
        start).map lineFeeds ≠ some 1 := by
  decide

/-- C3, amended: when the collaborator fails with description `d` and neither
the path, the mode nor `d` holds a line feed, the text written by the call is two
lines, each ended by a line feed: the first holds the path and the mode, the
second `error:` and `d`. It has exactly two line feeds, the last being its last
character. -/
theorem SetBackground_failure_two_lines {W : Type} (wallutils : Wallutils W)
    (fileNameString modeString : CharPtr) (st : Proc W) (d : String)
    (h : (wallutils.SetWallpaperCustom (GoString fileNameString) (GoString modeString) false
      st.desktop).1 = some d)
    (hp : lineFeeds (GoString fileNameString) = 0) (hm : lineFeeds (GoString modeString) = 0)
    (hd : lineFeeds d = 0) :
    ∃ line₁ line₂ : String,
      emitted wallutils fileNameString modeString st = some (line₁ ++ "\n" ++ line₂ ++ "\n")
      ∧ line₁ = "Error occured when setting " ++ GoString fileNameString
          ++ " as the background with mode " ++ GoString modeString
      ∧ line₂ = "error:" ++ d
      ∧ lineFeeds line₁ = 0 ∧ lineFeeds line₂ = 0
      ∧ lineFeeds (line₁ ++ "\n" ++ line₂ ++ "\n") = 2 := by
  have e₁ : lineFeeds "Error occured when setting " = 0 := by decide
  have e₂ : lineFeeds " as the background with mode " = 0 := by decide
  have e₃ : lineFeeds "error:" = 0 := by decide
  have e₄ : lineFeeds "\n" = 1 := by decide
  refine ⟨_, _, ?_, rfl, rfl, ?_, ?_, ?_⟩
  · simp only [emitted, SetBackground_of_failure wallutils fileNameString modeString st d h,
      newEvents_append, output, Option.map_some', Option.some.injEq]
    apply String.ext
    simp [String.data_append]
  · simp [lineFeeds_append, e₁, e₂, hp, hm]
  · simp [lineFeeds_append, e₃, hd]
  · simp [lineFeeds_append, e₁, e₂, e₃, e₄, hp, hm, hd]

/-- C3, amended, at path `/nonexistent.jpg`, mode `stretch`, failure
`file not found`. -/
theorem SetBackground_failure_two_lines_witness :
    (((failing "file not found").SetWallpaperCustom (GoString (cstring "/nonexistent.jpg" []))
        (GoString (cstring "stretch" [])) false start.desktop).1 = some "file not found"
      ∧ lineFeeds (GoString (cstring "/nonexistent.jpg" [])) = 0
      ∧ lineFeeds (GoString (cstring "stretch" [])) = 0
      ∧ lineFeeds "file not found" = 0)
    ∧ ∃ line₁ line₂ : String,
      emitted (failing "file not found") (cstring "/nonexistent.jpg" []) (cstring "stretch" [])
          start = some (line₁ ++ "\n" ++ line₂ ++ "\n")
      ∧ line₁ = "Error occured when setting " ++ GoString (cstring "/nonexistent.jpg" [])
          ++ " as the background with mode " ++ GoString (cstring "stretch" [])
      ∧ line₂ = "error:" ++ "file not found"
      ∧ lineFeeds line₁ = 0 ∧ lineFeeds line₂ = 0
      ∧ lineFeeds (line₁ ++ "\n" ++ line₂ ++ "\n") = 2 :=
  ⟨⟨rfl, by decide, by decide, by decide⟩,
    SetBackground_failure_two_lines (failing "file not found") (cstring "/nonexistent.jpg" [])
      (cstring "stretch" []) start "file not found" rfl (by decide) (by decide) (by decide)⟩

/-- C4: a path and a mode, each any text without NUL stored as a C string
(whatever follows the terminator), reach the collaborator character for
character, in one invocation; nothing is rejected or changed. -/
theorem SetBackground_forwards_verbatim {W : Type} (wallutils : Wallutils W)
    (path mode : String) (afterPath afterMode : List Char) (st : Proc W)
    (hp : NUL ∉ path.data) (hm : NUL ∉ mode.data) :
    forwarded wallutils (cstring path afterPath) (cstring mode afterMode) st
      = some [(path, mode, false)] := by
  rw [forwarded_eq, GoString_cstring path afterPath hp, GoString_cstring mode afterMode hm]

/-- C4 at path `relative/pic.png` and mode `bogus-mode`. -/
theorem SetBackground_forwards_verbatim_witness :
    (NUL ∉ "relative/pic.png".data ∧ NUL ∉ "bogus-mode".data)
    ∧ forwarded succeeding (cstring "relative/pic.png" []) (cstring "bogus-mode" ['x']) start
      = some [("relative/pic.png", "bogus-mode", false)] :=
  ⟨⟨by decide, by decide⟩,
    SetBackground_forwards_verbatim succeeding "relative/pic.png" "bogus-mode" [] ['x'] start
      (by decide) (by decide)⟩

/-- C5: whatever the arguments, the collaborator and the process state, the
fallback flag of every invocation made by a call of the bridge is `false`. -/
theorem SetBackground_fallback_false {W : Type} (wallutils : Wallutils W)
    (fileNameString modeString : CharPtr) (st : Proc W) :
    (forwarded wallutils fileNameString modeString st).map (List.map (fun c => c.2.2))
      = some [false] := by
  simp [forwarded_eq]

/-- C6: whatever the collaborator does, the call returns, with the unit result;
the result is the same for any two collaborators, succeeding or failing. -/
theorem SetBackground_returns_unit {W W' : Type} (wallutils : Wallutils W)
    (wallutils' : Wallutils W') (fileNameString modeString : CharPtr) (st : Proc W)
    (st' : Proc W') :
    (SetBackground wallutils fileNameString modeString st).map Prod.fst = some ()
    ∧ (SetBackground wallutils fileNameString modeString st).map Prod.fst
      = (SetBackground wallutils' fileNameString modeString st').map Prod.fst := by
  obtain ⟨s₁, h₁⟩ := SetBackground_isSome wallutils fileNameString modeString st
  obtain ⟨s₂, h₂⟩ := SetBackground_isSome wallutils' fileNameString modeString st'
  simp [h₁, h₂]

/-- C7, as the source has it: at path `/nonexistent.jpg`, mode `stretch`,
failure `file not found`, nothing is written to standard error, and standard
output does not stay as it was: it receives the diagnostic text. -/
theorem SetBackground_failure_stderr_counterexample :
    ((failing "file not found").SetWallpaperCustom (GoString (cstring "/nonexistent.jpg" []))
        (GoString (cstring "stretch" [])) false start.desktop).1 = some "file not found"
    ∧ emittedTo Fd.stderr (failing "file not found") (cstring "/nonexistent.jpg" [])
        (cstring "stretch" []) start = some ""
    ∧ emittedTo Fd.stdout (failing "file not found") (cstring "/nonexistent.jpg" [])
        (cstring "stretch" []) start
      = some "Error occured when setting /nonexistent.jpg as the background with mode stretch\nerror:file not found\n"
    ∧ emittedTo Fd.stdout (failing "file not found") (cstring "/nonexistent.jpg" [])
        (cstring "stretch" []) start ≠ some "" := by
  decide

/-- C7, amended: when the collaborator fails with description `d`, the
diagnostic text is written to the standard output stream, and nothing is written
to the standard error stream. -/
theorem SetBackground_failure_to_stdout {W : Type} (wallutils : Wallutils W)
    (fileNameString modeString : CharPtr) (st : Proc W) (d : String)
    (h : (wallutils.SetWallpaperCustom (GoString fileNameString) (GoString modeString) false
      st.desktop).1 = some d) :
    emittedTo Fd.stdout wallutils fileNameString modeString st
      = emitted wallutils fileNameString modeString st
    ∧ emittedTo Fd.stdout wallutils fileNameString modeString st
      = some ("Error occured when setting " ++ GoString fileNameString
          ++ " as the background with mode " ++ GoString modeString ++ "\nerror:" ++ d
          ++ "\n")
    ∧ emittedTo Fd.stderr wallutils fileNameString modeString st = some "" := by
  simp [emitted, emittedTo, SetBackground_of_failure wallutils fileNameString modeString st d h,
    newEvents_append, output, written]

/-- C7, amended, at path `/nonexistent.jpg`, mode `stretch`, failure
`file not found`. -/
theorem SetBackground_failure_to_stdout_witness :
    ((failing "file not found").SetWallpaperCustom (GoString (cstring "/nonexistent.jpg" []))
        (GoString (cstring "stretch" [])) false start.desktop).1 = some "file not found"
    ∧ (emittedTo Fd.stdout (failing "file not found") (cstring "/nonexistent.jpg" [])
          (cstring "stretch" []) start
        = emitted (failing "file not found") (cstring "/nonexistent.jpg" [])
          (cstring "stretch" []) start
      ∧ emittedTo Fd.stdout (failing "file not found") (cstring "/nonexistent.jpg" [])
          (cstring "stretch" []) start
        = some ("Error occured when setting " ++ GoString (cstring "/nonexistent.jpg" [])
            ++ " as the background with mode " ++ GoString (cstring "stretch" []) ++ "\nerror:"
            ++ "file not found" ++ "\n")
      ∧ emittedTo Fd.stderr (failing "file not found") (cstring "/nonexistent.jpg" [])
          (cstring "stretch" []) start = some "") :=
  ⟨rfl, SetBackground_failure_to_stdout (failing "file not found")
    (cstring "/nonexistent.jpg" []) (cstring "stretch" []) start "file not found" rfl⟩

/-- C8: after any sequence of earlier calls (any paths, modes and outcomes), a
call forwards its own path and mode with the flag `false`, and both what it
forwards and what it writes are what the same call does alone in a fresh
process whose collaborator gives the same result. -/
theorem SetBackground_stateless {W : Type} (wallutils : Wallutils W)
    (calls : List (CharPtr × CharPtr)) (st₀ : Proc W) (fileNameString modeString : CharPtr) :
    ∃ st : Proc W, runCalls wallutils calls st₀ = some st
      ∧ forwarded wallutils fileNameString modeString st
        = some [(GoString fileNameString, GoString modeString, false)]
      ∧ forwarded wallutils fileNameString modeString st
        = forwarded (returning (wallutils.SetWallpaperCustom (GoString fileNameString)
            (GoString modeString) false st.desktop).1) fileNameString modeString start
      ∧ emitted wallutils fileNameString modeString st
        = emitted (returning (wallutils.SetWallpaperCustom (GoString fileNameString)
            (GoString modeString) false st.desktop).1) fileNameString modeString start := by
  obtain ⟨st, hst⟩ := runCalls_isSome wallutils calls st₀
  refine ⟨st, hst, forwarded_eq _ _ _ _, ?_, emitted_eq_alone _ _ _ _⟩
  rw [forwarded_eq, forwarded_eq]

/-- C9: one call of the bridge adds to the trace one invocation of the
collaborator, then its return, then only writes: the collaborator is invoked
exactly once, and whatever is written comes after that invocation returned. -/
theorem SetBackground_invokes_once {W : Type} (wallutils : Wallutils W)
    (fileNameString modeString : CharPtr) (st : Proc W) :
    ∃ (st' : Proc W) (ws : List Event),
      SetBackground wallutils fileNameString modeString st = some ((), st')
      ∧ newEvents st st'
        = Event.call (GoString fileNameString) (GoString modeString) false
          :: Event.ret (wallutils.SetWallpaperCustom (GoString fileNameString)
              (GoString modeString) false st.desktop).1
          :: ws
      ∧ (∀ e ∈ ws, Event.isWrite e = true)
      ∧ (invocations (newEvents st st')).length = 1
      ∧ (invocations ws).length = 0 := by
  rcases h : (wallutils.SetWallpaperCustom (GoString fileNameString) (GoString modeString)
    false st.desktop).1 with _ | d
  · refine ⟨_, [], SetBackground_of_success wallutils fileNameString modeString st h, ?_⟩
    simp [newEvents_append, invocations]
  · refine ⟨_,
      [Event.write Fd.stdout ("Error occured when setting " ++ GoString fileNameString
        ++ " as the background with mode " ++ GoString modeString ++ "\nerror:" ++ d ++ "\n")],
      SetBackground_of_failure wallutils fileNameString modeString st d h, ?_⟩
    simp [newEvents_append, invocations, Event.isWrite]

end DynamicPaper
